import Mathlib

/-
Verification of the workflow orchestration core of the FinanceAgents repository.

The embedding models the Python sources directly:
  agents/managers/validator.py, agents/managers/coordinator.py,
  agents/analysts/market_analyst.py, agents/analysts/news_analyst.py,
  agents/analysts/risk_analyst.py, agents/managers/response_generator.py,
  memory/memory_system.py and graph/trading_graph.py.

Python strings are modelled as Lean strings; the Python string operations
used by the code (strip, slicing, lower, substring membership, split) are
defined below on the underlying character lists, matching the code-point
semantics of Python. Python floats are modelled as rationals. A Python dict
with optional keys is modelled as a structure whose fields are Options
(none = key absent); a value that can itself be None is an Option inside an
Option. External collaborator calls (language model invocations, data tools,
the memory store) are parameters of the node functions: an Except value or
function standing for the outcome of the call at the single point where the
node performs it. A node that can raise an uncaught exception returns an
Except; nodes whose source catches every exception are total functions.

The coordinator stores the structured IntentClassification value (a pydantic
model) into the state; every downstream node then reads it with the dict
method get (market_analyst.py line 39, news_analyst.py line 51,
risk_analyst.py line 38, response_generator.py line 38). Pydantic BaseModel
defines no get method, so by Python semantics that read raises AttributeError
whenever the classification is present in the state; when the key is absent,
state.get supplies an empty dict and the read yields an empty dict. The
stateEntities definition models this read, making the four nodes that perform
it fallible at that point.
-/

set_option maxRecDepth 8192

abbrev Err := String

/-- Apostrophe character, used inside source message strings. -/
def apos : String := String.singleton (Char.ofNat 39)

/-- Python str.lower: lowercase every character (identity on CJK characters). -/
def pyLower (s : String) : String := String.mk (s.data.map Char.toLower)

/-- Python slicing s[:n]: the first n characters. -/
def pyTake (s : String) (n : Nat) : String := String.mk (s.data.take n)

/-- Python str.strip: drop leading and trailing whitespace. -/
def pyStrip (s : String) : String :=
  String.mk ((((s.data.dropWhile Char.isWhitespace).reverse).dropWhile Char.isWhitespace).reverse)

/-- Does the first list occur at the head of the second list. -/
def leadsList : List Char → List Char → Bool
  | [], _ => true
  | _ :: _, [] => false
  | a :: as, b :: bs => a == b && leadsList as bs

/-- Does the first list occur contiguously anywhere inside the second list. -/
def occursWithin (sub : List Char) : List Char → Bool
  | [] => leadsList sub []
  | b :: bs => leadsList sub (b :: bs) || occursWithin sub bs

/-- Python substring membership: sub in s. -/
def pyContainsSub (sub s : String) : Bool := occursWithin sub.data s.data

/-- Auxiliary for pySplitChar. -/
def splitCharAux (c : Char) : List Char → List Char → List String
  | [], acc => [String.mk acc.reverse]
  | b :: bs, acc =>
    if b = c then String.mk acc.reverse :: splitCharAux c bs []
    else splitCharAux c bs (b :: acc)

/-- Python str.split on a one-character separator. -/
def pySplitChar (c : Char) (s : String) : List String := splitCharAux c s.data []

/-- Stand-in for the Python str() rendering of a float; the rendered text is
never inspected by the orchestration core. -/
def pyRatStr (q : Rat) : String := toString q

/-- Rendering of a possibly-None float, as interpolated by an f-string. -/
def pyOptRatStr (o : Option Rat) : String :=
  match o with
  | some v => pyRatStr v
  | none => "None"

/-- Keep an Except value only when it succeeded. -/
def exceptToOption {α : Type} (r : Except Err α) : Option α :=
  match r with
  | Except.ok a => some a
  | Except.error _ => none

/- ===== Data model (agents/utils/agent_states.py) ===== -/

/-- ExtractedEntities: the entity record of the intent classification. -/
structure ExtractedEntities where
  symbol : Option String := none
  company_name : Option String := none
  capital : Option Rat := none
  risk_profile : Option String := none
  time_horizon : Option String := none
  symbols_to_compare : Option (List String) := none
deriving Repr, DecidableEq

/-- IntentClassification: intent plus extracted entities. -/
structure IntentClassification where
  intent : String
  entities : ExtractedEntities := {}
deriving Repr, DecidableEq

/-- The coordinator decision dict: intent, next_agent and reason. -/
structure CoordinatorDecision where
  intent : String
  next_agent : String
  reason : String
deriving Repr, DecidableEq

/-- The validation_result dict written by the validator node. -/
structure ValidationResult where
  valid : Bool
  error : Option String := none
  warning : Option String := none
deriving Repr, DecidableEq

/-- One audit entry of agent_outputs. -/
structure AgentOutput where
  agent : String
  output : String
deriving Repr, DecidableEq

/-- The technical-indicator dict; only bollinger_position_percent is ever read
by the core (risk_analyst.py lines 47 to 53). -/
structure Indicators where
  bollinger_position_percent : Option Rat := none
deriving Repr, DecidableEq

/-- The market_data dict assembled by the market analyst. A field that is an
Option of an Option distinguishes a key that is absent (outer none) from a
key present with value None (inner none). -/
structure MarketDict where
  current_price : Option (Option Rat) := none
  price_change : Option (Option Rat) := none
  price_change_percent : Option (Option Rat) := none
  historical_data_summary : Option String := none
  indicators : Option Indicators := none
  analysis_summary : Option String := none
deriving Repr, DecidableEq

/-- One news item as parsed from the news tool output. -/
structure NewsItem where
  title : Option String := none
  published : Option String := none
  source : Option String := none
  summary : Option String := none
deriving Repr, DecidableEq

/-- The news_analysis dict assembled by the news analyst. -/
structure NewsDict where
  summary : Option String := none
  sentiment_score : Option Rat := none
  source_count : Option Nat := none
  recent_news : Option (List NewsItem) := none
deriving Repr, DecidableEq

/-- The risk_assessment dict assembled by the risk analyst; volatility can be
present with value None, hence the nested Option. -/
structure RiskDict where
  risk_level : Option String := none
  volatility : Option (Option Rat) := none
  risk_factors : Option (List String) := none
  recommendations : Option (List String) := none
deriving Repr, DecidableEq

/-- The decision_context record returned by the response generator. -/
structure DecisionContext where
  intent : Option String
  symbol : String
  company_name : String
  risk_profile : Option String
  capital : Rat
  market_price : Option (Option Rat)
  risk_level : String
  sentiment_score : Rat
deriving Repr, DecidableEq

/-- The state container threaded through the graph (FinanceAgentState).
The messages field of the TypedDict is omitted: no node reads or writes it. -/
structure FinanceAgentState where
  original_question : String
  user_id : String
  session_id : String
  validation_result : Option ValidationResult := none
  intent_classification : Option IntentClassification := none
  coordinator_decision : Option CoordinatorDecision := none
  market_data : Option MarketDict := none
  news_analysis : Option NewsDict := none
  risk_assessment : Option RiskDict := none
  agent_outputs : List AgentOutput := []
  error_log : List String := []
  final_response : Option String := none
  decision_context : Option DecisionContext := none
deriving Repr, DecidableEq

/-- A partial state returned by a node; a field is some value exactly when the
returned Python dict carries the corresponding key. -/
structure PartialState where
  original_question : Option String := none
  validation_result : Option ValidationResult := none
  intent_classification : Option IntentClassification := none
  coordinator_decision : Option CoordinatorDecision := none
  market_data : Option MarketDict := none
  news_analysis : Option NewsDict := none
  risk_assessment : Option RiskDict := none
  agent_outputs : Option (List AgentOutput) := none
  error_log : Option (List String) := none
  final_response : Option String := none
  decision_context : Option DecisionContext := none
deriving Repr, DecidableEq

/-- Overwrite-on-presence used by the state merge. -/
def mergeOpt {α : Type} (p s : Option α) : Option α :=
  match p with
  | some v => some v
  | none => s

/-- Merge a partial state into the container: every key present in the partial
overwrites the container entry (the nodes themselves build old plus delta for
the two audit lists, so the merge is a plain overwrite there too). -/
def mergeState (s : FinanceAgentState) (p : PartialState) : FinanceAgentState :=
  { original_question := p.original_question.getD s.original_question
    user_id := s.user_id
    session_id := s.session_id
    validation_result := mergeOpt p.validation_result s.validation_result
    intent_classification := mergeOpt p.intent_classification s.intent_classification
    coordinator_decision := mergeOpt p.coordinator_decision s.coordinator_decision
    market_data := mergeOpt p.market_data s.market_data
    news_analysis := mergeOpt p.news_analysis s.news_analysis
    risk_assessment := mergeOpt p.risk_assessment s.risk_assessment
    agent_outputs := p.agent_outputs.getD s.agent_outputs
    error_log := p.error_log.getD s.error_log
    final_response := mergeOpt p.final_response s.final_response
    decision_context := mergeOpt p.decision_context s.decision_context }

/-- create_initial_state of agents/utils/agent_states.py; the session id (a
fresh uuid in the source) is a parameter. -/
def create_initial_state (question user_id session_id : String) : FinanceAgentState :=
  { original_question := question, user_id := user_id, session_id := session_id }

/-- The AttributeError raised by intent_classification.get(...) when the
stored value is the pydantic IntentClassification model, which defines no get
method. -/
def pydanticGetError : Err :=
  "AttributeError: " ++ apos ++ "IntentClassification" ++ apos ++
    " object has no attribute " ++ apos ++ "get" ++ apos

/-- The read intent_classification.get("entities", {}) performed by every
analyst and by the response generator (market_analyst.py line 39,
news_analyst.py line 51, risk_analyst.py line 38, response_generator.py line
38). When the coordinator ran, the state holds the pydantic
IntentClassification model and the get call raises AttributeError; when the
key is absent, state.get supplies an empty dict and the read yields an empty
dict, so the entities are all absent. -/
def stateEntities (state : FinanceAgentState) : Except Err ExtractedEntities :=
  match state.intent_classification with
  | some _ => Except.error pydanticGetError
  | none => Except.ok {}

/- ===== Validator (agents/managers/validator.py) ===== -/

/-- The validate_input result dict. -/
structure ValidateOutcome where
  is_valid : Bool
  error : Option String := none
  warning : Option String := none
  cleaned_question : String
deriving Repr, DecidableEq

/-- The finance keyword list of validate_input. -/
def finance_keywords : List String :=
  ["股票", "基金", "投资", "风险", "收益", "价格", "分析", "市场",
   "股价", "波动", "证券", "买入", "卖出", "股市", "行情",
   "stock", "fund", "invest", "risk", "return", "price", "market"]

/-- The keyword test of validate_input: any keyword occurs in cleaned.lower(). -/
def has_finance_keyword (cleaned : String) : Bool :=
  finance_keywords.any (fun kw => occursWithin kw.data (pyLower cleaned).data)

/-- validate_input of validator.py: empty, too short, too long (truncate),
not finance related, otherwise valid; first matching rule wins. -/
def validate_input (question : String) : ValidateOutcome :=
  if question = "" ∨ pyStrip question = "" then
    { is_valid := false, error := some "提问内容为空", cleaned_question := "" }
  else
    let cleaned := pyStrip question
    if cleaned.length < 5 then
      { is_valid := false, error := some "提问太短，请提供更详细的问题", cleaned_question := cleaned }
    else if cleaned.length > 500 then
      { is_valid := true, warning := some "提问过长，已截断为500个字符",
        cleaned_question := pyTake cleaned 500 }
    else if ¬ has_finance_keyword cleaned then
      { is_valid := false,
        error := some "提问似乎与金融投资无关，请提供与金融市场、股票或投资相关的问题",
        cleaned_question := cleaned }
    else
      { is_valid := true, cleaned_question := cleaned }

/-- validator_node of validator.py. -/
def validator_node (state : FinanceAgentState) : PartialState :=
  let vr := validate_input state.original_question
  if vr.is_valid then
    { original_question := some vr.cleaned_question
      validation_result := some { valid := true, error := none, warning := vr.warning }
      agent_outputs :=
        match vr.warning with
        | some w => some (state.agent_outputs ++ [{ agent := "validator", output := w }])
        | none => none }
  else
    { validation_result := some { valid := false, error := vr.error, warning := none }
      agent_outputs := some (state.agent_outputs ++
        [{ agent := "validator", output := vr.error.getD "输入验证失败" }])
      final_response := some ("抱歉，我无法处理您的问题：" ++ vr.error.getD "输入验证失败") }

/- ===== Coordinator (agents/managers/coordinator.py) ===== -/

/-- classify_intent of coordinator.py: on collaborator failure, fall back to
intent unknown with empty entities rather than propagating. -/
def classify_intent (outcome : Except Err IntentClassification) : IntentClassification :=
  match outcome with
  | Except.ok result => result
  | Except.error _ => { intent := "unknown", entities := {} }

/-- The dispatch chain of coordinator_node (lines 77 to 91), applied to the
lowercased intent. -/
def coordinator_dispatch (intent : String) : String :=
  if intent = "price_query" ∨ intent = "stock_info" then
    "market_analyst"
  else if intent = "news_query" ∨ intent = "sentiment_analysis" then
    "news_analyst"
  else if intent = "risk_analysis" then
    "risk_analyst"
  else if intent = "investment_advice" ∨ intent = "comparison" then
    "market_analyst+news_analyst+risk_analyst"
  else
    "unknown"

/-- Stand-in for the Python dict() rendering of entities in the coordinator
audit entry; the text is never inspected elsewhere. -/
def entities_repr (e : ExtractedEntities) : String :=
  e.symbol.getD "None" ++ "|" ++ e.company_name.getD "None" ++ "|" ++
    pyOptRatStr e.capital ++ "|" ++ e.risk_profile.getD "None" ++ "|" ++
    e.time_horizon.getD "None"

/-- The reason text of the coordinator decision. -/
def coordinator_reason (intent next_agent : String) : String :=
  "基于用户意图" ++ apos ++ intent ++ apos ++ "，决定调用" ++ next_agent ++ "智能体"

/-- coordinator_node of coordinator.py; classifyOutcome is the result of the
classification collaborator invocation. -/
def coordinator_node (classifyOutcome : Except Err IntentClassification)
    (state : FinanceAgentState) : PartialState :=
  if state.original_question = "" then
    { error_log := some (state.error_log ++ ["协调器无法获取用户问题"]) }
  else
    let intent_result := classify_intent classifyOutcome
    let intent := pyLower intent_result.intent
    let next_agent := coordinator_dispatch intent
    { intent_classification := some intent_result
      coordinator_decision := some
        { intent := intent
          next_agent := next_agent
          reason := coordinator_reason intent next_agent }
      agent_outputs := some (state.agent_outputs ++
        [{ agent := "coordinator"
           output := "确定意图: " ++ intent ++ "，实体: " ++ entities_repr intent_result.entities }]) }

/- ===== Analyst collaborator interfaces ===== -/

/-- The parsed JSON of one tool output; one open record covering every key any
analyst reads. The nested Option on volatility_percent records key presence,
which risk_analyst.py line 105 tests explicitly. -/
structure ToolJson where
  current_price : Option Rat := none
  change : Option Rat := none
  change_percent : Option Rat := none
  period : Option String := none
  start_price : Option Rat := none
  end_price : Option Rat := none
  volatility_percent : Option (Option Rat) := none
  indicators : Option Indicators := none
  analysis_summary : Option String := none
deriving Repr, DecidableEq

deriving instance DecidableEq for Except

/-- One tool call on a model response: its name and the result of
json.loads on its output (error when parsing raises). -/
structure ToolCall where
  name : String
  parsed : Except Err ToolJson
deriving Repr, DecidableEq

/-- A model response as consumed by the market and risk analysts: the list of
tool calls and the prose content. -/
structure LLMResponse where
  tool_calls : List ToolCall
  content : String
deriving Repr, DecidableEq

/- ===== Market analyst (agents/analysts/market_analyst.py) ===== -/

/-- The historical-data summary string of market_analyst.py lines 98 to 102. -/
def market_hist_summary (symbol : String) (hd : ToolJson) : String :=
  "在过去" ++ hd.period.getD "一年" ++ "中，" ++ symbol ++ "的价格从" ++
    pyOptRatStr hd.start_price ++ "变动到" ++ pyOptRatStr hd.end_price ++
    "，波动率为" ++ pyOptRatStr (hd.volatility_percent.getD none) ++ "%。"

/-- The tool-call loop of market_analyst.py lines 84 to 112, folded over the
tool calls in order; a parse failure leaves the dict unchanged. -/
def market_fold_tools (symbol : String) (tool_calls : List ToolCall) : MarketDict :=
  tool_calls.foldl
    (fun md tc =>
      if tc.name = "get_stock_price" then
        match tc.parsed with
        | Except.ok pd =>
          { md with current_price := some pd.current_price
                    price_change := some pd.change
                    price_change_percent := some pd.change_percent }
        | Except.error _ => md
      else if tc.name = "get_stock_historical_data" then
        match tc.parsed with
        | Except.ok hd =>
          { md with historical_data_summary := some (market_hist_summary symbol hd) }
        | Except.error _ => md
      else if tc.name = "analyze_technical_indicators" then
        match tc.parsed with
        | Except.ok td =>
          { md with indicators := some (td.indicators.getD {})
                    analysis_summary := some (td.analysis_summary.getD "") }
        | Except.error _ => md
      else md)
    {}

/-- market_analyst_node of market_analyst.py; outcome is the result of the
model chain invocation. The entities read at line 39 happens before the try
block, so its AttributeError propagates out of the node. -/
def market_analyst_node (outcome : Except Err LLMResponse)
    (state : FinanceAgentState) : Except Err PartialState :=
  match stateEntities state with
  | Except.error e => Except.error e
  | Except.ok entities =>
  let symbol := entities.symbol.getD ""
  if symbol = "" then
    Except.ok
    { market_data := some {}
      agent_outputs := some (state.agent_outputs ++
        [{ agent := "market_analyst", output := "无法进行市场分析：未提供股票代码" }]) }
  else
    match outcome with
    | Except.error e =>
      Except.ok
      { market_data := some {}
        error_log := some (state.error_log ++ ["市场分析过程中发生错误: " ++ e])
        agent_outputs := some (state.agent_outputs ++
          [{ agent := "market_analyst", output := "市场分析过程中发生错误: " ++ e }]) }
    | Except.ok resp =>
      Except.ok
      { market_data := some (market_fold_tools symbol resp.tool_calls)
        agent_outputs := some (state.agent_outputs ++
          [{ agent := "market_analyst", output := resp.content }]) }

/- ===== News analyst (agents/analysts/news_analyst.py) ===== -/

/-- The structured output of the news-analysis model chain. -/
structure NewsAnalysisOutput where
  summary : String
  sentiment_score : Rat
deriving Repr, DecidableEq

/-- The parsed JSON of the news tool result; news_data.get("news", []). -/
structure NewsJson where
  news : Option (List NewsItem) := none
deriving Repr, DecidableEq

/-- The sentiment label of news_analyst.py lines 126 to 127. -/
def news_sentiment_text (score : Rat) : String :=
  if score > 1/5 then "正面" else if score < -(1/5) then "负面" else "中性"

/-- news_analyst_node of news_analyst.py. toolOutcome is the news_tool call
(raises to the outer handler), parse is json.loads on its result and
llmOutcome the analysis chain (both raise to the inner handler). The entities
read at line 51 happens before both try blocks, so its AttributeError
propagates out of the node. -/
def news_analyst_node (toolOutcome : Except Err String)
    (parse : String → Except Err NewsJson)
    (llmOutcome : Except Err NewsAnalysisOutput)
    (state : FinanceAgentState) : Except Err PartialState :=
  match stateEntities state with
  | Except.error e => Except.error e
  | Except.ok entities =>
  let symbol := entities.symbol
  let company_name := entities.company_name
  let query := if company_name.getD "" ≠ "" then company_name else symbol
  if query.getD "" = "" then
    Except.ok
    { news_analysis := some {}
      agent_outputs := some (state.agent_outputs ++
        [{ agent := "news_analyst", output := "无法进行新闻分析：未提供公司名称或股票代码" }]) }
  else
    let q := query.getD ""
    match toolOutcome with
    | Except.error e =>
      Except.ok
      { news_analysis := some {}
        error_log := some (state.error_log ++ ["新闻分析过程中发生错误: " ++ e])
        agent_outputs := some (state.agent_outputs ++
          [{ agent := "news_analyst", output := "新闻分析过程中发生错误: " ++ e }]) }
    | Except.ok news_result =>
      match parse news_result with
      | Except.error e =>
        Except.ok
        { news_analysis := some
            { summary := some ("无法分析" ++ q ++ "的新闻数据。")
              sentiment_score := some 0
              source_count := some 0
              recent_news := some [] }
          error_log := some (state.error_log ++ ["解析新闻数据时出错: " ++ e])
          agent_outputs := some (state.agent_outputs ++
            [{ agent := "news_analyst", output := "无法分析" ++ q ++ "的新闻数据：" ++ e }]) }
      | Except.ok news_data =>
        let news_items := news_data.news.getD []
        if news_items = [] then
          Except.ok
          { news_analysis := some
              { summary := some ("未找到关于" ++ q ++ "的最新新闻。")
                sentiment_score := some 0
                source_count := some 0
                recent_news := some [] }
            agent_outputs := some (state.agent_outputs ++
              [{ agent := "news_analyst", output := "未找到关于" ++ q ++ "的最新新闻。" }]) }
        else
          match llmOutcome with
          | Except.error e =>
            Except.ok
            { news_analysis := some
                { summary := some ("无法分析" ++ q ++ "的新闻数据。")
                  sentiment_score := some 0
                  source_count := some 0
                  recent_news := some [] }
              error_log := some (state.error_log ++ ["解析新闻数据时出错: " ++ e])
              agent_outputs := some (state.agent_outputs ++
                [{ agent := "news_analyst", output := "无法分析" ++ q ++ "的新闻数据：" ++ e }]) }
          | Except.ok ar =>
            Except.ok
            { news_analysis := some
                { summary := some ar.summary
                  sentiment_score := some ar.sentiment_score
                  source_count := some news_items.length
                  recent_news := some news_items }
              agent_outputs := some (state.agent_outputs ++
                [{ agent := "news_analyst"
                   output := "关于" ++ q ++ "的新闻分析：\n\n" ++ ar.summary ++
                     "\n\n情感评估：" ++ news_sentiment_text ar.sentiment_score ++
                     "（分数：" ++ pyRatStr ar.sentiment_score ++ "）\n分析了" ++
                     toString news_items.length ++ "条新闻源" }]) }

/- ===== Risk analyst (agents/analysts/risk_analyst.py) ===== -/

/-- The bollinger-based volatility estimate computed before the symbol check
(risk_analyst.py lines 42 to 53): abs(50 - position) * 0.4 when the market
data carries an indicators dict with bollinger_position_percent. -/
def bollinger_volatility_estimate (state : FinanceAgentState) : Option Rat :=
  let market_data := state.market_data.getD {}
  match market_data.indicators with
  | some indicators =>
    match indicators.bollinger_position_percent with
    | some bollinger_position => some (|50 - bollinger_position| * (2/5))
    | none => none
  | none => none

/-- One iteration of the tool-call loop of risk_analyst.py lines 100 to 108:
a parsed get_stock_historical_data output whose JSON carries the
volatility_percent key overwrites the running value; a parse failure or any
other tool leaves it. -/
def risk_volatility_step (acc : Option Rat) (tc : ToolCall) : Option Rat :=
  if tc.name = "get_stock_historical_data" then
    match tc.parsed with
    | Except.ok hist_data =>
      match hist_data.volatility_percent with
      | some v => v
      | none => acc
    | Except.error _ => acc
  else acc

/-- The tool-call loop of risk_analyst.py lines 100 to 108, folded in order
over the tool calls starting from the bollinger estimate. -/
def risk_extract_volatility (tool_calls : List ToolCall)
    (volatility_percent : Option Rat) : Option Rat :=
  tool_calls.foldl risk_volatility_step volatility_percent

/-- One iteration of the same loop, tracking whether any tool call yielded the
volatility_percent key at all: the last yielded value when one exists. -/
def last_tool_volatility_step (acc : Option (Option Rat)) (tc : ToolCall) :
    Option (Option Rat) :=
  if tc.name = "get_stock_historical_data" then
    match tc.parsed with
    | Except.ok hist_data =>
      match hist_data.volatility_percent with
      | some v => some v
      | none => acc
    | Except.error _ => acc
  else acc

/-- The last volatility_percent value yielded by the historical-data tool
calls, when any yielded one. -/
def last_tool_volatility (tool_calls : List ToolCall) : Option (Option Rat) :=
  tool_calls.foldl last_tool_volatility_step none

/-- The risk-level banding of risk_analyst.py lines 115 to 122. -/
def risk_level_of_volatility (v : Rat) : String :=
  if v < 15 then "低" else if v < 25 then "中" else if v < 40 then "高" else "极高"

/-- risk_analyst_node of risk_analyst.py. outcome is the model chain
invocation; extractFactors and extractRecommendations stand for the re.search
plus splitting post-processing of the prose content (lines 128 to 144), a
best-effort text concern whose result is the section list when the pattern
matched. The entities read at line 38 happens before the symbol check, the
bollinger estimate and the try block, so its AttributeError propagates out of
the node. -/
def risk_analyst_node (outcome : Except Err LLMResponse)
    (extractFactors extractRecommendations : String → Option (List String))
    (state : FinanceAgentState) : Except Err PartialState :=
  match stateEntities state with
  | Except.error e => Except.error e
  | Except.ok entities =>
  let symbol := entities.symbol.getD ""
  let volatility_estimate := bollinger_volatility_estimate state
  if symbol = "" then
    Except.ok
    { risk_assessment := some {}
      agent_outputs := some (state.agent_outputs ++
        [{ agent := "risk_analyst", output := "无法进行风险分析：未提供股票代码" }]) }
  else
    match outcome with
    | Except.error e =>
      Except.ok
      { risk_assessment := some {}
        error_log := some (state.error_log ++ ["风险分析过程中发生错误: " ++ e])
        agent_outputs := some (state.agent_outputs ++
          [{ agent := "risk_analyst", output := "风险分析过程中发生错误: " ++ e }]) }
    | Except.ok resp =>
      let volatility_percent := risk_extract_volatility resp.tool_calls volatility_estimate
      let ra0 : RiskDict :=
        { risk_level := some "未知", volatility := some none
          risk_factors := some [], recommendations := some [] }
      let ra1 :=
        match volatility_percent with
        | some v =>
          { ra0 with volatility := some (some v)
                     risk_level := some (risk_level_of_volatility v) }
        | none => ra0
      let ra2 :=
        match extractFactors resp.content with
        | some factors => { ra1 with risk_factors := some factors }
        | none => ra1
      let ra3 :=
        match extractRecommendations resp.content with
        | some recs => { ra2 with recommendations := some recs }
        | none => ra2
      Except.ok
      { risk_assessment := some ra3
        agent_outputs := some (state.agent_outputs ++
          [{ agent := "risk_analyst", output := resp.content }]) }

/- ===== Memory system (memory/memory_system.py) ===== -/

/-- The user-profile record as read by response_generator.py lines 62 to 81
through dict get calls with defaults. -/
structure UserProfile where
  interaction_count : Nat := 0
  risk_profile : Option String := none
  typical_investment_amount : Option Rat := none
  interests : List String := []
deriving Repr, DecidableEq

/-- The body of MemorySystem.store_interaction (memory_system.py lines 61 to
114): with no collection it returns the empty id; otherwise it absorbs any
failure of the underlying add call and returns the empty id, so a correctly
bound call never raises. -/
def store_interaction (collection_present : Bool) (add_outcome : Except Err Unit)
    (record_id : String) : String :=
  if ¬ collection_present then ""
  else
    match add_outcome with
    | Except.ok _ => record_id
    | Except.error _ => ""

/-- Behaviour of the attribute lookup memory_system.generate_user_profile on
the MemorySystem class of memory/memory_system.py: the class defines
store_interaction, retrieve_history and semantic_search only, so the lookup
raises AttributeError by Python semantics. -/
def memorySystemProfileCall : String → Except Err UserProfile :=
  fun _ => Except.error
    "AttributeError: MemorySystem object has no attribute generate_user_profile"

/-- Behaviour of the call memory_system.store_interaction(user_id=..., query=...,
response=..., decision_context=..., participating_agents=...) made by
response_generator.py lines 128 to 134 against the signature
store_interaction(self, user_id, query, response, decision_context=None) of
memory/memory_system.py: argument binding raises TypeError before the body
runs, by Python semantics. -/
def memorySystemStoreCall : Except Err String :=
  Except.error
    "TypeError: store_interaction got an unexpected keyword argument participating_agents"

/- ===== Response generator (agents/managers/response_generator.py) ===== -/

/-- The fallback apology of response_generator.py lines 153 to 157. -/
def fallback_response (e : Err) : String :=
  "抱歉，我在分析您的问题时遇到了技术问题。请您稍后再试或尝试重新表述您的问题。\n\n错误信息: " ++ e

/-- response_generator_node of response_generator.py. The entities read at
line 38 and the profile lookup generate_user_profile at line 62 both happen
before the try block, so their exceptions propagate out of the node;
llmOutcome is the response chain invocation and storeOutcome the
store_interaction call, both inside the try block whose handler returns the
fallback apology. The user-profile prompt text and the prompt parameter dict
only feed the external language collaborator and are not materialised. -/
def response_generator_node (generate_user_profile : String → Except Err UserProfile)
    (llmOutcome : Except Err String) (storeOutcome : Except Err String)
    (state : FinanceAgentState) : Except Err PartialState :=
  match stateEntities state with
  | Except.error e => Except.error e
  | Except.ok entities =>
  let user_id := state.user_id
  let intent_classification := state.intent_classification
  let risk_assessment := state.risk_assessment.getD {}
  let news_analysis := state.news_analysis.getD {}
  let symbol := entities.symbol.getD "未知"
  let company_name := entities.company_name.getD "未知"
  let risk_profile0 : Option String := some (entities.risk_profile.getD "未知")
  let capital0 : Rat := entities.capital.getD 0
  let risk_level := risk_assessment.risk_level.getD "未知"
  let sentiment_score := news_analysis.sentiment_score.getD 0
  let profiled : Except Err (Option String × Rat) :=
    if user_id ≠ "" then
      match generate_user_profile user_id with
      | Except.error e => Except.error e
      | Except.ok user_profile =>
        if user_profile.interaction_count > 0 then
          let rp :=
            if risk_profile0 = some "未知" ∧ user_profile.risk_profile ≠ some "未知" then
              user_profile.risk_profile
            else risk_profile0
          let cap :=
            if capital0 = 0 ∧ user_profile.typical_investment_amount ≠ none then
              user_profile.typical_investment_amount.getD 0
            else capital0
          Except.ok (rp, cap)
        else Except.ok (risk_profile0, capital0)
    else Except.ok (risk_profile0, capital0)
  match profiled with
  | Except.error e => Except.error e
  | Except.ok rc =>
    match llmOutcome with
    | Except.error e =>
      Except.ok
        { final_response := some (fallback_response e)
          error_log := some (state.error_log ++ ["生成响应时发生错误: " ++ e]) }
    | Except.ok final_response =>
      let success : PartialState :=
        { final_response := some final_response
          decision_context := some
            { intent := intent_classification.map (fun ic => ic.intent)
              symbol := symbol
              company_name := company_name
              risk_profile := rc.1
              capital := rc.2
              market_price := (state.market_data.getD {}).current_price
              risk_level := risk_level
              sentiment_score := sentiment_score } }
      if user_id ≠ "" then
        match storeOutcome with
        | Except.error e =>
          Except.ok
            { final_response := some (fallback_response e)
              error_log := some (state.error_log ++ ["生成响应时发生错误: " ++ e]) }
        | Except.ok _ => Except.ok success
      else Except.ok success

/- ===== Graph (graph/trading_graph.py) ===== -/

/-- should_continue_to_intent_classifier of trading_graph.py: to the
coordinator when validation passed, else to the end marker. -/
def should_continue_to_intent_classifier (state : FinanceAgentState) : String :=
  let is_valid :=
    match state.validation_result with
    | some vr => vr.valid
    | none => false
  if is_valid then "coordinator" else "__end__"

/-- route_based_on_coordinator_decision of trading_graph.py: first analyst of
a plus-joined plan, a recognised single analyst, else market_analyst. -/
def route_based_on_coordinator_decision (state : FinanceAgentState) : String :=
  let next_agent :=
    match state.coordinator_decision with
    | some d => d.next_agent
    | none => "unknown"
  if pyContainsSub "+" next_agent then
    (pySplitChar '+' next_agent).headD ""
  else if next_agent = "market_analyst" then "market_analyst"
  else if next_agent = "news_analyst" then "news_analyst"
  else if next_agent = "risk_analyst" then "risk_analyst"
  else "market_analyst"

/-- route_after_market_analyst of trading_graph.py. -/
def route_after_market_analyst (state : FinanceAgentState) : String :=
  let next_agent :=
    match state.coordinator_decision with
    | some d => d.next_agent
    | none => ""
  if pyContainsSub "+" next_agent then
    let agents := pySplitChar '+' next_agent
    if agents.contains "news_analyst" then "news_analyst"
    else if agents.contains "risk_analyst" then "risk_analyst"
    else "response_generator"
  else "response_generator"

/-- route_after_news_analyst of trading_graph.py. -/
def route_after_news_analyst (state : FinanceAgentState) : String :=
  let next_agent :=
    match state.coordinator_decision with
    | some d => d.next_agent
    | none => ""
  if pyContainsSub "+" next_agent then
    let agents := pySplitChar '+' next_agent
    if agents.contains "risk_analyst" then "risk_analyst"
    else "response_generator"
  else "response_generator"

/-- The per-run outcome of every external collaborator call site; each node
runs at most once per run, so one outcome per call site covers any
collaborator behaviour for a single run. -/
structure CollabEnv where
  classifyOutcome : Except Err IntentClassification
  marketOutcome : Except Err LLMResponse
  newsToolOutcome : Except Err String
  newsParse : String → Except Err NewsJson
  newsLLMOutcome : Except Err NewsAnalysisOutput
  riskOutcome : Except Err LLMResponse
  extractFactors : String → Option (List String)
  extractRecommendations : String → Option (List String)
  profileCall : String → Except Err UserProfile
  responseLLMOutcome : Except Err String
  storeOutcome : Except Err String

/-- Invoke the node registered under a name (build_graph of trading_graph.py). -/
def applyNode (env : CollabEnv) (name : String) (s : FinanceAgentState) :
    Except Err PartialState :=
  if name = "validator" then Except.ok (validator_node s)
  else if name = "coordinator" then Except.ok (coordinator_node env.classifyOutcome s)
  else if name = "market_analyst" then market_analyst_node env.marketOutcome s
  else if name = "news_analyst" then
    news_analyst_node env.newsToolOutcome env.newsParse env.newsLLMOutcome s
  else if name = "risk_analyst" then
    risk_analyst_node env.riskOutcome env.extractFactors
      env.extractRecommendations s
  else if name = "response_generator" then
    response_generator_node env.profileCall env.responseLLMOutcome env.storeOutcome s
  else Except.error ("no node named " ++ name)

/-- The conditional and fixed edges of build_graph: which node follows the one
just executed, on the merged state. -/
def routeFrom (name : String) (s : FinanceAgentState) : String :=
  if name = "validator" then should_continue_to_intent_classifier s
  else if name = "coordinator" then route_based_on_coordinator_decision s
  else if name = "market_analyst" then route_after_market_analyst s
  else if name = "news_analyst" then route_after_news_analyst s
  else if name = "risk_analyst" then "response_generator"
  else "__end__"

/-- The execution engine: invoke the current node, merge its partial state,
route, and continue until the end marker; a node exception ends the run with
that error. Returns the list of visited node names and the outcome. The fuel
bounds recursion; every path of this graph has at most six nodes. -/
def runFrom (env : CollabEnv) : Nat → String → FinanceAgentState →
    List String × Except Err FinanceAgentState
  | 0, _, _ => ([], Except.error "graph recursion limit reached")
  | Nat.succ fuel, name, s =>
    if name = "__end__" then ([], Except.ok s)
    else
      match applyNode env name s with
      | Except.error e => ([name], Except.error e)
      | Except.ok p =>
        let s2 := mergeState s p
        let r := runFrom env fuel (routeFrom name s2) s2
        (name :: r.1, r.2)

/-- One full run of the compiled graph from the initial state. -/
def runGraph (env : CollabEnv) (question user_id session_id : String) :
    List String × Except Err FinanceAgentState :=
  runFrom env 10 "validator" (create_initial_state question user_id session_id)

/- ===== Fixtures: concrete collaborator environments and states ===== -/

/-- Total collaborator outage: every external call fails; the memory calls
behave as the repository wires them (missing profile method, mismatched
store signature). -/
def outageEnv : CollabEnv :=
  { classifyOutcome := Except.error "意图分类服务不可用"
    marketOutcome := Except.error "市场数据服务不可用"
    newsToolOutcome := Except.error "新闻源不可用"
    newsParse := fun _ => Except.error "新闻解析失败"
    newsLLMOutcome := Except.error "新闻模型不可用"
    riskOutcome := Except.error "风险模型不可用"
    extractFactors := fun _ => none
    extractRecommendations := fun _ => none
    profileCall := memorySystemProfileCall
    responseLLMOutcome := Except.error "响应模型不可用"
    storeOutcome := memorySystemStoreCall }

/-- A state in mid-run as the response generator sees it: the user has an id,
validation passed, a price query for AAPL was classified and market data was
fetched. -/
def c2State : FinanceAgentState :=
  { create_initial_state "请分析苹果股票" "u1" "s2" with
    validation_result := some { valid := true }
    intent_classification := some
      { intent := "price_query", entities := { symbol := some "AAPL" } }
    coordinator_decision := some
      { intent := "price_query", next_agent := "market_analyst"
        reason := coordinator_reason "price_query" "market_analyst" }
    market_data := some { current_price := some (some 100) }
    agent_outputs := [{ agent := "validator", output := "通过" }] }

/-- A response-generator input state with no stored classification (the
entities read then sees the dict default) and a non-empty user id. -/
def c2bState : FinanceAgentState :=
  { create_initial_state "请分析苹果股票" "u1" "s2b" with
    validation_result := some { valid := true } }

/-- A state whose classification is a risk analysis of a concrete symbol. -/
def c6State : FinanceAgentState :=
  { create_initial_state "请分析腾讯的投资风险" "u6" "s6" with
    validation_result := some { valid := true }
    intent_classification := some
      { intent := "risk_analysis", entities := { symbol := some "00700.HK" } } }

/-- A stub risk-collaborator response whose historical-data tool call yields
volatility 30. -/
def c6Resp : LLMResponse :=
  { tool_calls := [{ name := "get_stock_historical_data"
                     parsed := Except.ok { volatility_percent := some (some 30) } }]
    content := "风险分析结论" }

/-- A state where the market analyst already ran with bollinger position 80. -/
def c10State : FinanceAgentState :=
  { create_initial_state "请给出股票投资建议" "u10" "s10" with
    validation_result := some { valid := true }
    intent_classification := some
      { intent := "investment_advice", entities := { symbol := some "AAPL" } }
    market_data := some { indicators := some { bollinger_position_percent := some 80 } } }

/-- A risk-collaborator response with no tool calls at all. -/
def c10Resp : LLMResponse := { tool_calls := [], content := "风险分析文本" }

/-- A historical-data tool call yielding volatility 17. -/
def c10OverrideCall : ToolCall :=
  { name := "get_stock_historical_data"
    parsed := Except.ok { volatility_percent := some (some 17) } }

/-- A 501-character question starting with the keyword stock. -/
def c8Question : String :=
  String.mk ('s' :: 't' :: 'o' :: 'c' :: 'k' :: List.replicate 496 'a')

/-- Collaborators where classification reports investment advice in mixed
case and everything else fails. -/
def c4Env : CollabEnv :=
  { outageEnv with classifyOutcome := Except.ok { intent := "Investment_Advice" } }

/-- The coordinator decision carrying the multi-analyst plan. -/
def c4Decision : CoordinatorDecision :=
  { intent := "investment_advice"
    next_agent := "market_analyst+news_analyst+risk_analyst"
    reason := coordinator_reason "investment_advice"
      "market_analyst+news_analyst+risk_analyst" }

/-- A state carrying the multi-analyst decision, as the routers read it. -/
def c4RouteState : FinanceAgentState :=
  { create_initial_state "请给出股票投资建议" "u4" "s4r" with
    coordinator_decision := some c4Decision }

/-- A state carrying the single market_analyst plan. -/
def c4SingleState : FinanceAgentState :=
  { create_initial_state "苹果股价多少" "u4" "s4s" with
    coordinator_decision := some
      { intent := "price_query", next_agent := "market_analyst"
        reason := coordinator_reason "price_query" "market_analyst" } }

/-- A state carrying the unknown plan. -/
def c4UnknownState : FinanceAgentState :=
  { create_initial_state "请分析股票走势" "u4" "s4u" with
    coordinator_decision := some
      { intent := "unknown", next_agent := "unknown"
        reason := coordinator_reason "unknown" "unknown" } }

/- ===== Helper lemmas ===== -/

lemma mergeOpt_none {α : Type} (s : Option α) : mergeOpt none s = s := rfl

lemma mergeOpt_some {α : Type} (v : α) (s : Option α) : mergeOpt (some v) s = some v := rfl

lemma runFrom_succ (env : CollabEnv) (fuel : Nat) (name : String) (s : FinanceAgentState) :
    runFrom env (fuel+1) name s =
      (if name = "__end__" then ([], Except.ok s)
       else
        match applyNode env name s with
        | Except.error e => ([name], Except.error e)
        | Except.ok p =>
          let s2 := mergeState s p
          let r := runFrom env fuel (routeFrom name s2) s2
          (name :: r.1, r.2)) := rfl

lemma validator_node_frame (s : FinanceAgentState) :
    (validator_node s).intent_classification = none ∧
    (validator_node s).coordinator_decision = none ∧
    (validator_node s).market_data = none ∧
    (validator_node s).news_analysis = none ∧
    (validator_node s).risk_assessment = none ∧
    (validator_node s).decision_context = none := by
  unfold validator_node
  dsimp only
  repeat' first
  | exact ⟨rfl, rfl, rfl, rfl, rfl, rfl⟩
  | split

lemma coordinator_node_frame (o : Except Err IntentClassification) (s : FinanceAgentState) :
    (coordinator_node o s).validation_result = none ∧
    (coordinator_node o s).market_data = none ∧
    (coordinator_node o s).news_analysis = none ∧
    (coordinator_node o s).risk_assessment = none ∧
    (coordinator_node o s).final_response = none ∧
    (coordinator_node o s).decision_context = none := by
  unfold coordinator_node
  dsimp only
  repeat' first
  | exact ⟨rfl, rfl, rfl, rfl, rfl, rfl⟩
  | split

lemma market_analyst_node_frame (o : Except Err LLMResponse) (s : FinanceAgentState)
    (p : PartialState) (h : market_analyst_node o s = Except.ok p) :
    p.validation_result = none ∧ p.intent_classification = none ∧
    p.coordinator_decision = none ∧ p.news_analysis = none ∧
    p.risk_assessment = none ∧ p.final_response = none ∧
    p.decision_context = none := by
  unfold market_analyst_node at h
  dsimp only at h
  repeat' split at h
  all_goals first
  | (injection h with h
     subst h
     exact ⟨rfl, rfl, rfl, rfl, rfl, rfl, rfl⟩)
  | injection h

lemma news_analyst_node_frame (t : Except Err String) (pa : String → Except Err NewsJson)
    (l : Except Err NewsAnalysisOutput) (s : FinanceAgentState)
    (p : PartialState) (h : news_analyst_node t pa l s = Except.ok p) :
    p.validation_result = none ∧ p.intent_classification = none ∧
    p.coordinator_decision = none ∧ p.market_data = none ∧
    p.risk_assessment = none ∧ p.final_response = none ∧
    p.decision_context = none := by
  unfold news_analyst_node at h
  dsimp only at h
  repeat' split at h
  all_goals first
  | (injection h with h
     subst h
     exact ⟨rfl, rfl, rfl, rfl, rfl, rfl, rfl⟩)
  | injection h

lemma risk_analyst_node_frame (o : Except Err LLMResponse)
    (ef er : String → Option (List String)) (s : FinanceAgentState)
    (p : PartialState) (h : risk_analyst_node o ef er s = Except.ok p) :
    p.validation_result = none ∧ p.intent_classification = none ∧
    p.coordinator_decision = none ∧ p.market_data = none ∧
    p.news_analysis = none ∧ p.final_response = none ∧
    p.decision_context = none := by
  unfold risk_analyst_node at h
  dsimp only at h
  repeat' split at h
  all_goals first
  | (injection h with h
     subst h
     exact ⟨rfl, rfl, rfl, rfl, rfl, rfl, rfl⟩)
  | injection h

lemma response_generator_node_frame (gp : String → Except Err UserProfile)
    (l : Except Err String) (st : Except Err String) (s : FinanceAgentState)
    (p : PartialState) (h : response_generator_node gp l st s = Except.ok p) :
    p.validation_result = none ∧ p.intent_classification = none ∧
    p.coordinator_decision = none ∧ p.market_data = none ∧
    p.news_analysis = none ∧ p.risk_assessment = none := by
  unfold response_generator_node at h
  dsimp only at h
  repeat' split at h
  all_goals first
  | (injection h with h
     subst h
     exact ⟨rfl, rfl, rfl, rfl, rfl, rfl⟩)
  | injection h

lemma applyNode_writes (env : CollabEnv) (name : String) (s : FinanceAgentState)
    (p : PartialState) (h : applyNode env name s = Except.ok p) :
    (name ≠ "market_analyst" → p.market_data = none) ∧
    (name ≠ "news_analyst" → p.news_analysis = none) ∧
    (name ≠ "risk_analyst" → p.risk_assessment = none) := by
  unfold applyNode at h
  by_cases h1 : name = "validator"
  · rw [if_pos h1] at h
    injection h with h
    subst h
    exact ⟨fun _ => (validator_node_frame s).2.2.1,
           fun _ => (validator_node_frame s).2.2.2.1,
           fun _ => (validator_node_frame s).2.2.2.2.1⟩
  · rw [if_neg h1] at h
    by_cases h2 : name = "coordinator"
    · rw [if_pos h2] at h
      injection h with h
      subst h
      exact ⟨fun _ => (coordinator_node_frame env.classifyOutcome s).2.1,
             fun _ => (coordinator_node_frame env.classifyOutcome s).2.2.1,
             fun _ => (coordinator_node_frame env.classifyOutcome s).2.2.2.1⟩
    · rw [if_neg h2] at h
      by_cases h3 : name = "market_analyst"
      · rw [if_pos h3] at h
        refine ⟨fun hn => absurd h3 hn, fun _ => ?_, fun _ => ?_⟩
        · exact (market_analyst_node_frame env.marketOutcome s p h).2.2.2.1
        · exact (market_analyst_node_frame env.marketOutcome s p h).2.2.2.2.1
      · rw [if_neg h3] at h
        by_cases h4 : name = "news_analyst"
        · rw [if_pos h4] at h
          refine ⟨fun _ => ?_, fun hn => absurd h4 hn, fun _ => ?_⟩
          · exact (news_analyst_node_frame env.newsToolOutcome env.newsParse
              env.newsLLMOutcome s p h).2.2.2.1
          · exact (news_analyst_node_frame env.newsToolOutcome env.newsParse
              env.newsLLMOutcome s p h).2.2.2.2.1
        · rw [if_neg h4] at h
          by_cases h5 : name = "risk_analyst"
          · rw [if_pos h5] at h
            refine ⟨fun _ => ?_, fun _ => ?_, fun hn => absurd h5 hn⟩
            · exact (risk_analyst_node_frame env.riskOutcome env.extractFactors
                env.extractRecommendations s p h).2.2.2.1
            · exact (risk_analyst_node_frame env.riskOutcome env.extractFactors
                env.extractRecommendations s p h).2.2.2.2.1
          · rw [if_neg h5] at h
            by_cases h6 : name = "response_generator"
            · rw [if_pos h6] at h
              exact ⟨fun _ => (response_generator_node_frame env.profileCall
                  env.responseLLMOutcome env.storeOutcome s p h).2.2.2.1,
                fun _ => (response_generator_node_frame env.profileCall
                  env.responseLLMOutcome env.storeOutcome s p h).2.2.2.2.1,
                fun _ => (response_generator_node_frame env.profileCall
                  env.responseLLMOutcome env.storeOutcome s p h).2.2.2.2.2⟩
            · rw [if_neg h6] at h
              cases h

lemma runFrom_no_visit_frame (env : CollabEnv) :
    ∀ (fuel : Nat) (name : String) (s st : FinanceAgentState),
      (runFrom env fuel name s).2 = Except.ok st →
      (¬ "market_analyst" ∈ (runFrom env fuel name s).1 → st.market_data = s.market_data) ∧
      (¬ "news_analyst" ∈ (runFrom env fuel name s).1 → st.news_analysis = s.news_analysis) ∧
      (¬ "risk_analyst" ∈ (runFrom env fuel name s).1 → st.risk_assessment = s.risk_assessment) := by
  intro fuel
  induction fuel with
  | zero =>
    intro name s st h
    exact absurd h (by simp [runFrom])
  | succ fuel ih =>
    intro name s st h
    by_cases hend : name = "__end__"
    · subst hend
      have h2 : runFrom env (fuel+1) "__end__" s = ([], Except.ok s) := by
        rw [runFrom_succ]
        simp
      rw [h2] at h ⊢
      have h3 : Except.ok (ε := Err) s = Except.ok st := h
      injection h3 with h3
      subst h3
      exact ⟨fun _ => rfl, fun _ => rfl, fun _ => rfl⟩
    · rw [runFrom_succ, if_neg hend] at h ⊢
      cases hap : applyNode env name s with
      | error e =>
        rw [hap] at h
        simp at h
      | ok p =>
        rw [hap] at h
        dsimp only at h ⊢
        have hrec := ih (routeFrom name (mergeState s p)) (mergeState s p) st h
        have hw := applyNode_writes env name s p hap
        refine ⟨?_, ?_, ?_⟩ <;> intro hmem
        · have hns : name ≠ "market_analyst" := fun hh => hmem (by simp [hh])
          have hnr : ¬ "market_analyst" ∈
              (runFrom env fuel (routeFrom name (mergeState s p)) (mergeState s p)).1 :=
            fun hh => hmem (by simp [hh])
          rw [hrec.1 hnr]
          show mergeOpt p.market_data s.market_data = s.market_data
          rw [hw.1 hns, mergeOpt_none]
        · have hns : name ≠ "news_analyst" := fun hh => hmem (by simp [hh])
          have hnr : ¬ "news_analyst" ∈
              (runFrom env fuel (routeFrom name (mergeState s p)) (mergeState s p)).1 :=
            fun hh => hmem (by simp [hh])
          rw [hrec.2.1 hnr]
          show mergeOpt p.news_analysis s.news_analysis = s.news_analysis
          rw [hw.2.1 hns, mergeOpt_none]
        · have hns : name ≠ "risk_analyst" := fun hh => hmem (by simp [hh])
          have hnr : ¬ "risk_analyst" ∈
              (runFrom env fuel (routeFrom name (mergeState s p)) (mergeState s p)).1 :=
            fun hh => hmem (by simp [hh])
          rw [hrec.2.2 hnr]
          show mergeOpt p.risk_assessment s.risk_assessment = s.risk_assessment
          rw [hw.2.2 hns, mergeOpt_none]

lemma validate_input_valid_cleaned_ne (q : String)
    (h : (validate_input q).is_valid = true) :
    ¬ (validate_input q).cleaned_question = "" := by
  by_cases h1 : q = "" ∨ pyStrip q = ""
  · have hval : validate_input q =
        { is_valid := false, error := some "提问内容为空", cleaned_question := "" } := by
      unfold validate_input
      rw [if_pos h1]
    rw [hval] at h
    simp at h
  · by_cases h2 : (pyStrip q).length < 5
    · have hval : validate_input q =
          { is_valid := false, error := some "提问太短，请提供更详细的问题"
            cleaned_question := pyStrip q } := by
        unfold validate_input
        rw [if_neg h1]
        dsimp only
        rw [if_pos h2]
      rw [hval] at h
      simp at h
    · by_cases h3 : (pyStrip q).length > 500
      · have hval : validate_input q =
            { is_valid := true, warning := some "提问过长，已截断为500个字符"
              cleaned_question := pyTake (pyStrip q) 500 } := by
          unfold validate_input
          rw [if_neg h1]
          dsimp only
          rw [if_neg h2, if_pos h3]
        rw [hval]
        intro he
        have he2 : pyTake (pyStrip q) 500 = "" := he
        have hd : (pyStrip q).data.take 500 = [] := congrArg String.data he2
        rcases List.take_eq_nil_iff.mp hd with h5 | h5
        · omega
        · have h0 : (pyStrip q).length = 0 := by
            show (pyStrip q).data.length = 0
            rw [h5]
            rfl
          omega
      · by_cases h4 : ¬ has_finance_keyword (pyStrip q) = true
        · have hval : validate_input q =
              { is_valid := false
                error := some "提问似乎与金融投资无关，请提供与金融市场、股票或投资相关的问题"
                cleaned_question := pyStrip q } := by
            unfold validate_input
            rw [if_neg h1]
            dsimp only
            rw [if_neg h2, if_neg h3, if_pos h4]
          rw [hval] at h
          simp at h
        · have hval : validate_input q =
              { is_valid := true, cleaned_question := pyStrip q } := by
            unfold validate_input
            rw [if_neg h1]
            dsimp only
            rw [if_neg h2, if_neg h3, if_neg h4]
          rw [hval]
          intro he
          exact h1 (Or.inr he)

lemma validator_node_valid (s : FinanceAgentState)
    (hv : (validate_input s.original_question).is_valid = true) :
    validator_node s =
      { original_question := some (validate_input s.original_question).cleaned_question
        validation_result := some { valid := true, error := none
                                    warning := (validate_input s.original_question).warning }
        agent_outputs :=
          match (validate_input s.original_question).warning with
          | some w => some (s.agent_outputs ++ [{ agent := "validator", output := w }])
          | none => none } := by
  unfold validator_node
  dsimp only
  rw [if_pos hv]

lemma validator_node_invalid (s : FinanceAgentState)
    (hv : (validate_input s.original_question).is_valid = false) :
    validator_node s =
      { validation_result := some { valid := false
                                    error := (validate_input s.original_question).error
                                    warning := none }
        agent_outputs := some (s.agent_outputs ++
          [{ agent := "validator"
             output := (validate_input s.original_question).error.getD "输入验证失败" }])
        final_response := some ("抱歉，我无法处理您的问题：" ++
          (validate_input s.original_question).error.getD "输入验证失败") } := by
  unfold validator_node
  dsimp only
  rw [if_neg (by simp [hv])]

lemma run_valid_step (env : CollabEnv) (q uid sid : String)
    (hv : (validate_input q).is_valid = true) :
    runGraph env q uid sid =
      ("validator" :: (runFrom env (3+6) "coordinator"
          (mergeState (create_initial_state q uid sid)
            (validator_node (create_initial_state q uid sid)))).1,
        (runFrom env (3+6) "coordinator"
          (mergeState (create_initial_state q uid sid)
            (validator_node (create_initial_state q uid sid)))).2) := by
  unfold runGraph
  rw [show (10:Nat) = (3+6)+1 from rfl, runFrom_succ,
    if_neg (by decide : ¬ ("validator" = "__end__"))]
  have hap : applyNode env "validator" (create_initial_state q uid sid) =
      Except.ok (validator_node (create_initial_state q uid sid)) := rfl
  rw [hap]
  dsimp only
  have hvr : (mergeState (create_initial_state q uid sid)
      (validator_node (create_initial_state q uid sid))).validation_result =
      some { valid := true, error := none, warning := (validate_input q).warning } := by
    show mergeOpt (validator_node (create_initial_state q uid sid)).validation_result
      (create_initial_state q uid sid).validation_result = _
    rw [validator_node_valid (create_initial_state q uid sid) hv]
    rfl
  have hroute : routeFrom "validator" (mergeState (create_initial_state q uid sid)
      (validator_node (create_initial_state q uid sid))) = "coordinator" := by
    show should_continue_to_intent_classifier _ = _
    unfold should_continue_to_intent_classifier
    rw [hvr]
    rfl
  rw [hroute]

lemma run_valid_merged_question (q uid sid : String)
    (hv : (validate_input q).is_valid = true) :
    ¬ (mergeState (create_initial_state q uid sid)
        (validator_node (create_initial_state q uid sid))).original_question = "" := by
  have ho : (mergeState (create_initial_state q uid sid)
      (validator_node (create_initial_state q uid sid))).original_question =
      (validate_input q).cleaned_question := by
    show ((validator_node (create_initial_state q uid sid)).original_question).getD
      (create_initial_state q uid sid).original_question = _
    rw [validator_node_valid (create_initial_state q uid sid) hv]
    rfl
  rw [ho]
  exact validate_input_valid_cleaned_ne q hv

lemma risk_volatility_step_getD (acc : Option (Option Rat)) (init : Option Rat)
    (tc : ToolCall) :
    risk_volatility_step (acc.getD init) tc = (last_tool_volatility_step acc tc).getD init := by
  unfold risk_volatility_step last_tool_volatility_step
  by_cases hn : tc.name = "get_stock_historical_data"
  · rw [if_pos hn, if_pos hn]
    cases hp : tc.parsed with
    | error e => rfl
    | ok hd =>
      dsimp only
      cases hvp : hd.volatility_percent with
      | none => rfl
      | some v => rfl
  · rw [if_neg hn, if_neg hn]

lemma risk_extract_volatility_foldl (tcs : List ToolCall) :
    ∀ (acc : Option (Option Rat)) (init : Option Rat),
      risk_extract_volatility tcs (acc.getD init) =
        (tcs.foldl last_tool_volatility_step acc).getD init := by
  induction tcs with
  | nil => intro acc init; rfl
  | cons tc rest ih =>
    intro acc init
    show risk_extract_volatility rest (risk_volatility_step (acc.getD init) tc) =
      (rest.foldl last_tool_volatility_step (last_tool_volatility_step acc tc)).getD init
    rw [risk_volatility_step_getD acc init tc]
    exact ih (last_tool_volatility_step acc tc) init

lemma risk_extract_volatility_eq_last (tcs : List ToolCall) (init : Option Rat) :
    risk_extract_volatility tcs init = (last_tool_volatility tcs).getD init :=
  risk_extract_volatility_foldl tcs none init

lemma stateEntities_some (s : FinanceAgentState) (ic : IntentClassification)
    (h : s.intent_classification = some ic) :
    stateEntities s = Except.error pydanticGetError := by
  unfold stateEntities
  rw [h]

lemma market_analyst_node_raises (o : Except Err LLMResponse) (s : FinanceAgentState)
    (ic : IntentClassification) (h : s.intent_classification = some ic) :
    market_analyst_node o s = Except.error pydanticGetError := by
  unfold market_analyst_node
  rw [stateEntities_some s ic h]

lemma news_analyst_node_raises (t : Except Err String) (pa : String → Except Err NewsJson)
    (l : Except Err NewsAnalysisOutput) (s : FinanceAgentState)
    (ic : IntentClassification) (h : s.intent_classification = some ic) :
    news_analyst_node t pa l s = Except.error pydanticGetError := by
  unfold news_analyst_node
  rw [stateEntities_some s ic h]

lemma risk_analyst_node_raises (o : Except Err LLMResponse)
    (ef er : String → Option (List String)) (s : FinanceAgentState)
    (ic : IntentClassification) (h : s.intent_classification = some ic) :
    risk_analyst_node o ef er s = Except.error pydanticGetError := by
  unfold risk_analyst_node
  rw [stateEntities_some s ic h]

lemma response_generator_node_raises (gp : String → Except Err UserProfile)
    (l : Except Err String) (st : Except Err String) (s : FinanceAgentState)
    (ic : IntentClassification) (h : s.intent_classification = some ic) :
    response_generator_node gp l st s = Except.error pydanticGetError := by
  unfold response_generator_node
  rw [stateEntities_some s ic h]

lemma coordinator_node_classification (o : Except Err IntentClassification)
    (s : FinanceAgentState) (hq : ¬ s.original_question = "") :
    (coordinator_node o s).intent_classification = some (classify_intent o) := by
  unfold coordinator_node
  rw [if_neg hq]

lemma coordinator_node_decision_any (o : Except Err IntentClassification)
    (s : FinanceAgentState) (hq : ¬ s.original_question = "") :
    (coordinator_node o s).coordinator_decision =
      some { intent := pyLower (classify_intent o).intent
             next_agent := coordinator_dispatch (pyLower (classify_intent o).intent)
             reason := coordinator_reason (pyLower (classify_intent o).intent)
               (coordinator_dispatch (pyLower (classify_intent o).intent)) } := by
  unfold coordinator_node
  rw [if_neg hq]

lemma coordinator_dispatch_cases (x : String) :
    coordinator_dispatch x = "market_analyst" ∨
    coordinator_dispatch x = "news_analyst" ∨
    coordinator_dispatch x = "risk_analyst" ∨
    coordinator_dispatch x = "market_analyst+news_analyst+risk_analyst" ∨
    coordinator_dispatch x = "unknown" := by
  unfold coordinator_dispatch
  split_ifs
  · exact Or.inl rfl
  · exact Or.inr (Or.inl rfl)
  · exact Or.inr (Or.inr (Or.inl rfl))
  · exact Or.inr (Or.inr (Or.inr (Or.inl rfl)))
  · exact Or.inr (Or.inr (Or.inr (Or.inr rfl)))

lemma route_of_dispatch (s : FinanceAgentState) (d : CoordinatorDecision) (x : String)
    (hd : s.coordinator_decision = some d) (hna : d.next_agent = coordinator_dispatch x) :
    route_based_on_coordinator_decision s = "market_analyst" ∨
    route_based_on_coordinator_decision s = "news_analyst" ∨
    route_based_on_coordinator_decision s = "risk_analyst" := by
  unfold route_based_on_coordinator_decision
  dsimp only
  rw [hd]
  dsimp only
  rw [hna]
  rcases coordinator_dispatch_cases x with h5 | h5 | h5 | h5 | h5 <;> rw [h5]
  · exact Or.inl (by decide)
  · exact Or.inr (Or.inl (by decide))
  · exact Or.inr (Or.inr (by decide))
  · exact Or.inl (by decide)
  · exact Or.inl (by decide)

lemma runFrom_aborts_at_analyst (env : CollabEnv) (fuel : Nat) (s : FinanceAgentState)
    (name : String) (ic : IntentClassification)
    (hic : s.intent_classification = some ic)
    (hname : name = "market_analyst" ∨ name = "news_analyst" ∨ name = "risk_analyst") :
    (runFrom env (fuel+1) name s).2 = Except.error pydanticGetError := by
  rcases hname with h | h | h <;> subst h <;> rw [runFrom_succ]
  · rw [if_neg (by decide : ¬ ("market_analyst" = "__end__"))]
    rw [show applyNode env "market_analyst" s = market_analyst_node env.marketOutcome s from rfl,
      market_analyst_node_raises env.marketOutcome s ic hic]
  · rw [if_neg (by decide : ¬ ("news_analyst" = "__end__"))]
    rw [show applyNode env "news_analyst" s =
        news_analyst_node env.newsToolOutcome env.newsParse env.newsLLMOutcome s from rfl,
      news_analyst_node_raises env.newsToolOutcome env.newsParse env.newsLLMOutcome s ic hic]
  · rw [if_neg (by decide : ¬ ("risk_analyst" = "__end__"))]
    rw [show applyNode env "risk_analyst" s =
        risk_analyst_node env.riskOutcome env.extractFactors env.extractRecommendations s from rfl,
      risk_analyst_node_raises env.riskOutcome env.extractFactors
        env.extractRecommendations s ic hic]

lemma run_valid_aborts (env : CollabEnv) (q uid sid : String)
    (hv : (validate_input q).is_valid = true) :
    (runGraph env q uid sid).2 = Except.error pydanticGetError := by
  have hq2 := run_valid_merged_question q uid sid hv
  rw [run_valid_step env q uid sid hv]
  dsimp only
  set VS := mergeState (create_initial_state q uid sid)
    (validator_node (create_initial_state q uid sid)) with hVSdef
  rw [show ((3:Nat)+6) = 8+1 from rfl, runFrom_succ,
    if_neg (by decide : ¬ ("coordinator" = "__end__"))]
  rw [show applyNode env "coordinator" VS =
      Except.ok (coordinator_node env.classifyOutcome VS) from rfl]
  dsimp only
  set S4 := mergeState VS (coordinator_node env.classifyOutcome VS) with hS4def
  have hic : S4.intent_classification = some (classify_intent env.classifyOutcome) := by
    rw [hS4def]
    show mergeOpt (coordinator_node env.classifyOutcome VS).intent_classification
      VS.intent_classification = _
    rw [coordinator_node_classification env.classifyOutcome VS hq2, mergeOpt_some]
  have hcd : S4.coordinator_decision = some
      { intent := pyLower (classify_intent env.classifyOutcome).intent
        next_agent := coordinator_dispatch (pyLower (classify_intent env.classifyOutcome).intent)
        reason := coordinator_reason (pyLower (classify_intent env.classifyOutcome).intent)
          (coordinator_dispatch (pyLower (classify_intent env.classifyOutcome).intent)) } := by
    rw [hS4def]
    show mergeOpt (coordinator_node env.classifyOutcome VS).coordinator_decision
      VS.coordinator_decision = _
    rw [coordinator_node_decision_any env.classifyOutcome VS hq2, mergeOpt_some]
  have hrf : routeFrom "coordinator" S4 = route_based_on_coordinator_decision S4 := rfl
  rw [hrf]
  rcases route_of_dispatch S4 _ (pyLower (classify_intent env.classifyOutcome).intent)
    hcd rfl with hr | hr | hr <;> rw [hr]
  · exact runFrom_aborts_at_analyst env 7 S4 "market_analyst"
      (classify_intent env.classifyOutcome) hic (Or.inl rfl)
  · exact runFrom_aborts_at_analyst env 7 S4 "news_analyst"
      (classify_intent env.classifyOutcome) hic (Or.inr (Or.inl rfl))
  · exact runFrom_aborts_at_analyst env 7 S4 "risk_analyst"
      (classify_intent env.classifyOutcome) hic (Or.inr (Or.inr rfl))

lemma run_invalid_result (env : CollabEnv) (q uid sid : String)
    (hv : (validate_input q).is_valid = false) :
    runGraph env q uid sid =
      (["validator"], Except.ok (mergeState (create_initial_state q uid sid)
        (validator_node (create_initial_state q uid sid)))) := by
  unfold runGraph
  rw [show (10:Nat) = 9+1 from rfl, runFrom_succ,
    if_neg (by decide : ¬ ("validator" = "__end__"))]
  rw [show applyNode env "validator" (create_initial_state q uid sid) =
      Except.ok (validator_node (create_initial_state q uid sid)) from rfl]
  dsimp only
  have hvr : (mergeState (create_initial_state q uid sid)
      (validator_node (create_initial_state q uid sid))).validation_result =
      some { valid := false, error := (validate_input q).error, warning := none } := by
    show mergeOpt (validator_node (create_initial_state q uid sid)).validation_result
      (create_initial_state q uid sid).validation_result = _
    rw [validator_node_invalid (create_initial_state q uid sid) hv]
    rfl
  have hroute : routeFrom "validator" (mergeState (create_initial_state q uid sid)
      (validator_node (create_initial_state q uid sid))) = "__end__" := by
    show should_continue_to_intent_classifier _ = _
    unfold should_continue_to_intent_classifier
    rw [hvr]
    rfl
  rw [hroute, show (9:Nat) = 8+1 from rfl, runFrom_succ, if_pos rfl]

/- ===== Claim theorems ===== -/

/-- C1: the claim says every run terminates with a final_response, even under
total collaborator outage, with the Response Generator writing the canned
apology. Refuted: a validated run under total outage visits validator and
coordinator, then aborts inside the first analyst with the uncaught
AttributeError from intent_classification.get (market_analyst.py line 39,
because the coordinator stored the pydantic IntentClassification model, which
has no get method); the run ends in an error with no final state and no
final_response, never reaching the Response Generator. -/
theorem claim_C1_run_aborts :
    runGraph outageEnv "请分析股票风险走势如何" "u1" "s1" =
      (["validator", "coordinator", "market_analyst"], Except.error pydanticGetError) ∧
    (exceptToOption (runGraph outageEnv "请分析股票风险走势如何" "u1" "s1").2).bind
      (fun st => st.final_response) = none :=
  ⟨rfl, rfl⟩

/-- C2: the claim says a persistence failure after successful prose synthesis
leaves final_response and decision_context unchanged, with the error only
absorbed. Refuted as unreachable: on the mid-run state the generator reads
(c2State, classification present), the node aborts at the entities read of
response_generator.py line 38 before any prose or store logic; with the
classification absent (c2bState) it aborts instead at the
generate_user_profile lookup of line 62, which MemorySystem does not define.
The store call itself is also mis-bound (participating_agents keyword,
memorySystemStoreCall), though the store_interaction body as written would
absorb an engine failure and return the empty id. -/
theorem claim_C2_persistence_unreachable :
    response_generator_node memorySystemProfileCall (Except.ok "RESPONSE_TEXT")
      memorySystemStoreCall c2State = Except.error pydanticGetError ∧
    response_generator_node memorySystemProfileCall (Except.ok "RESPONSE_TEXT")
      memorySystemStoreCall c2bState =
      Except.error "AttributeError: MemorySystem object has no attribute generate_user_profile" ∧
    memorySystemStoreCall =
      Except.error
        "TypeError: store_interaction got an unexpected keyword argument participating_agents" ∧
    store_interaction true (Except.error "存储引擎故障") "u1_1700000000" = "" ∧
    store_interaction true (Except.ok ()) "u1_1700000000" = "u1_1700000000" :=
  ⟨rfl, rfl, rfl, rfl, rfl⟩

/-- C5: the claim says a throwing classification collaborator makes the
Coordinator record intent unknown with empty entities and plan unknown, and
the run still completes with a final_response. The coordinator part holds
(first two conjuncts); the completion part is refuted: the run then routes to
market_analyst (the fallback for an unrecognised plan) and aborts there with
the uncaught AttributeError from the entities read, ending with no final
state and no final_response. -/
theorem claim_C5_classifier_throw :
    (coordinator_node (Except.error "意图分类服务不可用")
        (create_initial_state "请分析股票投资风险" "u5" "s5")).intent_classification =
      some { intent := "unknown", entities := {} } ∧
    ((coordinator_node (Except.error "意图分类服务不可用")
        (create_initial_state "请分析股票投资风险" "u5" "s5")).coordinator_decision).map
      (fun d => d.next_agent) = some "unknown" ∧
    runGraph outageEnv "请分析股票投资风险" "u5" "s5" =
      (["validator", "coordinator", "market_analyst"], Except.error pydanticGetError) ∧
    (exceptToOption (runGraph outageEnv "请分析股票投资风险" "u5" "s5").2).bind
      (fun st => st.final_response) = none :=
  ⟨rfl, rfl, rfl, rfl⟩

/-- C3: for every classified intent string, the dispatch plan recorded in
coordinator_decision.next_agent is determined case-insensitively by the exact
table: price_query and stock_info map to market_analyst; news_query and
sentiment_analysis to news_analyst; risk_analysis to risk_analyst;
investment_advice and comparison to the plus-joined three-analyst plan; every
other intent maps to unknown. -/
theorem claim_C3_dispatch_table (intent : String) (ents : ExtractedEntities)
    (s : FinanceAgentState) (h : ¬ s.original_question = "") :
    ((pyLower intent = "price_query" ∨ pyLower intent = "stock_info") →
      ((coordinator_node (Except.ok { intent := intent, entities := ents })
        s).coordinator_decision).map (fun d => d.next_agent) = some "market_analyst") ∧
    ((pyLower intent = "news_query" ∨ pyLower intent = "sentiment_analysis") →
      ((coordinator_node (Except.ok { intent := intent, entities := ents })
        s).coordinator_decision).map (fun d => d.next_agent) = some "news_analyst") ∧
    (pyLower intent = "risk_analysis" →
      ((coordinator_node (Except.ok { intent := intent, entities := ents })
        s).coordinator_decision).map (fun d => d.next_agent) = some "risk_analyst") ∧
    ((pyLower intent = "investment_advice" ∨ pyLower intent = "comparison") →
      ((coordinator_node (Except.ok { intent := intent, entities := ents })
        s).coordinator_decision).map (fun d => d.next_agent) =
          some "market_analyst+news_analyst+risk_analyst") ∧
    ((¬ pyLower intent = "price_query" ∧ ¬ pyLower intent = "stock_info" ∧
      ¬ pyLower intent = "news_query" ∧ ¬ pyLower intent = "sentiment_analysis" ∧
      ¬ pyLower intent = "risk_analysis" ∧ ¬ pyLower intent = "investment_advice" ∧
      ¬ pyLower intent = "comparison") →
      ((coordinator_node (Except.ok { intent := intent, entities := ents })
        s).coordinator_decision).map (fun d => d.next_agent) = some "unknown") := by
  have hcn : (coordinator_node (Except.ok { intent := intent, entities := ents })
      s).coordinator_decision =
      some { intent := pyLower intent
             next_agent := coordinator_dispatch (pyLower intent)
             reason := coordinator_reason (pyLower intent)
               (coordinator_dispatch (pyLower intent)) } := by
    unfold coordinator_node
    rw [if_neg h]
    rfl
  refine ⟨?_, ?_, ?_, ?_, ?_⟩
  · intro hi
    rw [hcn]
    show some (coordinator_dispatch (pyLower intent)) = some "market_analyst"
    unfold coordinator_dispatch
    rcases hi with hi | hi <;> rw [hi] <;> rfl
  · intro hi
    rw [hcn]
    show some (coordinator_dispatch (pyLower intent)) = some "news_analyst"
    unfold coordinator_dispatch
    rcases hi with hi | hi <;> rw [hi] <;> rfl
  · intro hi
    rw [hcn]
    show some (coordinator_dispatch (pyLower intent)) = some "risk_analyst"
    unfold coordinator_dispatch
    rw [hi]
    rfl
  · intro hi
    rw [hcn]
    show some (coordinator_dispatch (pyLower intent)) =
      some "market_analyst+news_analyst+risk_analyst"
    unfold coordinator_dispatch
    rcases hi with hi | hi <;> rw [hi] <;> rfl
  · intro hi
    rw [hcn]
    show some (coordinator_dispatch (pyLower intent)) = some "unknown"
    unfold coordinator_dispatch
    rw [if_neg (not_or.mpr ⟨hi.1, hi.2.1⟩), if_neg (not_or.mpr ⟨hi.2.2.1, hi.2.2.2.1⟩),
        if_neg hi.2.2.2.2.1, if_neg (not_or.mpr ⟨hi.2.2.2.2.2.1, hi.2.2.2.2.2.2⟩)]

/-- Witness for C3 at a concrete mixed-case intent: Price_Query on a non-empty
question dispatches to market_analyst. -/
theorem claim_C3_witness :
    ¬ (create_initial_state "苹果股价多少" "u3" "s3").original_question = "" ∧
    ((coordinator_node (Except.ok { intent := "Price_Query", entities := {} })
        (create_initial_state "苹果股价多少" "u3" "s3")).coordinator_decision).map
      (fun d => d.next_agent) = some "market_analyst" :=
  ⟨by decide,
   (claim_C3_dispatch_table "Price_Query" {}
     (create_initial_state "苹果股价多少" "u3" "s3") (by decide)).1 (Or.inl (by decide))⟩

/-- C6: the claim says the Risk Analyst bands an obtained volatility v as 低
below 15, 中 in [15,25), 高 in [25,40) and 极高 from 40, with the stub
volatility-30 scenario yielding 高. The banding chain of risk_analyst.py
lines 115 to 122 does map volatilities that way (spot checks across every
band and boundary), but the scenario is refuted as unreachable: on the
classified risk state the node aborts at the entities read of line 38 with
the uncaught AttributeError, before the symbol check, the tool loop and the
banding, so no risk_assessment is ever recorded. -/
theorem claim_C6_banding_unreachable :
    risk_analyst_node (Except.ok c6Resp) (fun _ => none) (fun _ => none) c6State =
      Except.error pydanticGetError ∧
    risk_level_of_volatility 10 = "低" ∧ risk_level_of_volatility 14 = "低" ∧
    risk_level_of_volatility 15 = "中" ∧ risk_level_of_volatility 24 = "中" ∧
    risk_level_of_volatility 25 = "高" ∧ risk_level_of_volatility 30 = "高" ∧
    risk_level_of_volatility 39 = "高" ∧ risk_level_of_volatility 40 = "极高" ∧
    risk_level_of_volatility 50 = "极高" := by
  refine ⟨rfl, ?_, ?_, ?_, ?_, ?_, ?_, ?_, ?_, ?_⟩ <;> decide

/-- C8: every input whose trimmed length exceeds 500 characters and that
contains a finance keyword is marked valid, the cleaned question written back
is exactly 500 characters, and the truncation warning is recorded in
validation_result. -/
theorem claim_C8_truncation (s : FinanceAgentState)
    (hlen : 500 < (pyStrip s.original_question).length)
    (hkw : has_finance_keyword (pyStrip s.original_question) = true) :
    (validator_node s).validation_result =
      some { valid := true, error := none, warning := some "提问过长，已截断为500个字符" } ∧
    (validator_node s).original_question =
      some (pyTake (pyStrip s.original_question) 500) ∧
    (pyTake (pyStrip s.original_question) 500).length = 500 := by
  have hq : ¬(s.original_question = "" ∨ pyStrip s.original_question = "") := by
    intro hor
    have h0 : (pyStrip s.original_question).length = 0 := by
      rcases hor with h' | h'
      · rw [show pyStrip s.original_question = "" from by rw [h']; rfl]
        rfl
      · rw [h']
        rfl
    omega
  have hval : validate_input s.original_question =
      { is_valid := true, warning := some "提问过长，已截断为500个字符"
        cleaned_question := pyTake (pyStrip s.original_question) 500 } := by
    unfold validate_input
    rw [if_neg hq]
    dsimp only
    rw [if_neg (by omega : ¬ (pyStrip s.original_question).length < 5), if_pos hlen]
  have hvn := validator_node_valid s (by rw [hval])
  rw [hvn, hval]
  refine ⟨rfl, rfl, ?_⟩
  show ((pyStrip s.original_question).data.take 500).length = 500
  have hlen2 : 500 < (pyStrip s.original_question).data.length := hlen
  rw [List.length_take]
  omega

/-- Witness for C8: a 501-character question containing the keyword stock is
truncated to exactly 500 characters. -/
theorem claim_C8_witness :
    500 < (pyStrip c8Question).length ∧
    has_finance_keyword (pyStrip c8Question) = true ∧
    (pyTake (pyStrip c8Question) 500).length = 500 :=
  ⟨by decide, by decide,
   (claim_C8_truncation (create_initial_state c8Question "u8" "s8")
     (by decide) (by decide)).2.2⟩

/-- C10: the claim says that with bollinger_position_percent b in the market
data and no volatility from the risk tool call, the Risk Analyst uses
abs(50 - b) * 0.4 for banding, with a tool-provided volatility overriding the
estimate. The arithmetic and the override hold of the helper computations
(bollinger estimate 12 at b = 80, kept by an empty tool loop, overridden to
17 by a historical-data call), but the scenario is refuted as unreachable: on
the classified post-market state the node aborts at the entities read of
risk_analyst.py line 38 with the uncaught AttributeError, before the estimate
at lines 42 to 53 is computed or recorded. -/
theorem claim_C10_estimate_unreachable :
    risk_analyst_node (Except.ok c10Resp) (fun _ => none) (fun _ => none) c10State =
      Except.error pydanticGetError ∧
    bollinger_volatility_estimate c10State = some 12 ∧
    |50 - (80:Rat)| * (2/5) = 12 ∧
    risk_extract_volatility c10Resp.tool_calls (some 12) = some 12 ∧
    risk_extract_volatility [c10OverrideCall] (some 12) = some 17 := by
  have habs : |50 - (80:Rat)| = 30 := by
    rw [show (50:Rat) - 80 = -(30:Rat) by norm_num, abs_neg,
      abs_of_nonneg (by norm_num : (0:Rat) ≤ 30)]
  refine ⟨rfl, ?_, ?_, rfl, rfl⟩
  · show some (|50 - (80:Rat)| * (2/5)) = some 12
    rw [habs]
    norm_num
  · rw [habs]
    norm_num

/-- C7: the claim says an analyst state field (market_data, news_analysis,
risk_assessment) is absent from the final state whenever that analyst did not
run or found no actionable entity. Confirmed in a strong form: in every run
of the graph that completes with a final state, no analyst ever ran (a
validated run aborts at the first analyst with the AttributeError from the
entities read; an invalid input ends the run after the validator), so all
three fields are absent from every final state. -/
theorem claim_C7_fields_absent (env : CollabEnv) (q uid sid : String)
    (st : FinanceAgentState)
    (h : (runGraph env q uid sid).2 = Except.ok st) :
    st.market_data = none ∧ st.news_analysis = none ∧ st.risk_assessment = none := by
  by_cases hv : (validate_input q).is_valid = true
  · rw [run_valid_aborts env q uid sid hv] at h
    simp at h
  · have hinv : (validate_input q).is_valid = false := by
      cases hb : (validate_input q).is_valid
      · rfl
      · exact absurd hb hv
    rw [run_invalid_result env q uid sid hinv] at h
    have h2 : Except.ok (ε := Err) (mergeState (create_initial_state q uid sid)
        (validator_node (create_initial_state q uid sid))) = Except.ok st := h
    injection h2 with h2
    subst h2
    refine ⟨?_, ?_, ?_⟩
    · show mergeOpt (validator_node (create_initial_state q uid sid)).market_data
        (create_initial_state q uid sid).market_data = none
      rw [(validator_node_frame (create_initial_state q uid sid)).2.2.1]
      rfl
    · show mergeOpt (validator_node (create_initial_state q uid sid)).news_analysis
        (create_initial_state q uid sid).news_analysis = none
      rw [(validator_node_frame (create_initial_state q uid sid)).2.2.2.1]
      rfl
    · show mergeOpt (validator_node (create_initial_state q uid sid)).risk_assessment
        (create_initial_state q uid sid).risk_assessment = none
      rw [(validator_node_frame (create_initial_state q uid sid)).2.2.2.2.1]
      rfl

/-- Witness for C7: a non-finance question completes the run after the
validator only, and all three analyst fields are absent from its final
state. -/
theorem claim_C7_fields_absent_witness :
    (runGraph outageEnv "今天天气如何" "u7" "s7").2 =
      Except.ok (mergeState (create_initial_state "今天天气如何" "u7" "s7")
        (validator_node (create_initial_state "今天天气如何" "u7" "s7"))) ∧
    ((mergeState (create_initial_state "今天天气如何" "u7" "s7")
        (validator_node (create_initial_state "今天天气如何" "u7" "s7"))).market_data = none ∧
     (mergeState (create_initial_state "今天天气如何" "u7" "s7")
        (validator_node (create_initial_state "今天天气如何" "u7" "s7"))).news_analysis = none ∧
     (mergeState (create_initial_state "今天天气如何" "u7" "s7")
        (validator_node (create_initial_state "今天天气如何" "u7" "s7"))).risk_assessment = none) :=
  ⟨rfl, claim_C7_fields_absent outageEnv "今天天气如何" "u7" "s7" _ rfl⟩

/-- C9 counterexample: the empty input has trimmed length 0, below 5, yet the
validator records the question-empty error, not the too-short error demanded
by the claim. -/
theorem claim_C9_counterexample :
    (pyStrip "").length < 5 ∧
    (validator_node (create_initial_state "" "u9" "s9")).validation_result =
      some { valid := false, error := some "提问内容为空", warning := none } ∧
    ¬ ("提问内容为空" = "提问太短，请提供更详细的问题") := by
  exact ⟨by decide, rfl, by decide⟩

/-- C9 amended: every input of trimmed length below 5 is rejected by the
validator — with the question-empty error when the trimmed text is empty and
the too-short error otherwise — the run visits only the validator node (the
coordinator never executes) and ends with a non-empty final_response embedding
that error. -/
theorem claim_C9_amended (env : CollabEnv) (q uid sid : String)
    (hlen : (pyStrip q).length < 5) :
    (runGraph env q uid sid).1 = ["validator"] ∧
    ¬ "coordinator" ∈ (runGraph env q uid sid).1 ∧
    (exceptToOption (runGraph env q uid sid).2).bind (fun st => st.final_response) =
      some ("抱歉，我无法处理您的问题：" ++
        (if pyStrip q = "" then "提问内容为空" else "提问太短，请提供更详细的问题")) ∧
    ¬ (exceptToOption (runGraph env q uid sid).2).bind (fun st => st.final_response) =
      some "" := by
  have hval : validate_input q =
      (if pyStrip q = "" then
        { is_valid := false, error := some "提问内容为空", cleaned_question := "" }
       else
        { is_valid := false, error := some "提问太短，请提供更详细的问题"
          cleaned_question := pyStrip q }) := by
    by_cases hq : pyStrip q = ""
    · rw [if_pos hq]
      unfold validate_input
      rw [if_pos (Or.inr hq)]
    · rw [if_neg hq]
      have hcond : ¬(q = "" ∨ pyStrip q = "") := by
        rintro (h' | h')
        · exact hq (by rw [h']; rfl)
        · exact hq h'
      unfold validate_input
      rw [if_neg hcond]
      dsimp only
      rw [if_pos hlen]
  have hinv : (validate_input q).is_valid = false := by
    rw [hval]
    by_cases hq : pyStrip q = ""
    · rw [if_pos hq]
    · rw [if_neg hq]
  have herr : (validate_input q).error =
      some (if pyStrip q = "" then "提问内容为空" else "提问太短，请提供更详细的问题") := by
    rw [hval]
    by_cases hq : pyStrip q = ""
    · rw [if_pos hq, if_pos hq]
    · rw [if_neg hq, if_neg hq]
  unfold runGraph
  rw [show (10:Nat) = 9+1 from rfl, runFrom_succ,
    if_neg (by decide : ¬ ("validator" = "__end__"))]
  have hap : applyNode env "validator" (create_initial_state q uid sid) =
      Except.ok (validator_node (create_initial_state q uid sid)) := rfl
  rw [hap]
  dsimp only
  have hvr : (mergeState (create_initial_state q uid sid)
      (validator_node (create_initial_state q uid sid))).validation_result =
      some { valid := false, error := (validate_input q).error, warning := none } := by
    show mergeOpt (validator_node (create_initial_state q uid sid)).validation_result
      (create_initial_state q uid sid).validation_result = _
    rw [validator_node_invalid (create_initial_state q uid sid) hinv]
    rfl
  have hroute : routeFrom "validator" (mergeState (create_initial_state q uid sid)
      (validator_node (create_initial_state q uid sid))) = "__end__" := by
    show should_continue_to_intent_classifier _ = _
    unfold should_continue_to_intent_classifier
    rw [hvr]
    rfl
  rw [hroute, show (9:Nat) = 8+1 from rfl, runFrom_succ, if_pos rfl]
  have hfr : (mergeState (create_initial_state q uid sid)
      (validator_node (create_initial_state q uid sid))).final_response =
      some ("抱歉，我无法处理您的问题：" ++
        (if pyStrip q = "" then "提问内容为空" else "提问太短，请提供更详细的问题")) := by
    show mergeOpt (validator_node (create_initial_state q uid sid)).final_response
      (create_initial_state q uid sid).final_response = _
    rw [validator_node_invalid (create_initial_state q uid sid) hinv]
    show some ("抱歉，我无法处理您的问题：" ++ (validate_input q).error.getD "输入验证失败") = _
    rw [herr]
    rfl
  refine ⟨rfl, by simp, ?_, ?_⟩
  · show (mergeState (create_initial_state q uid sid)
      (validator_node (create_initial_state q uid sid))).final_response = _
    exact hfr
  · show ¬ (mergeState (create_initial_state q uid sid)
      (validator_node (create_initial_state q uid sid))).final_response = some ""
    rw [hfr]
    intro hcontra
    injection hcontra with hcontra
    have hd := congrArg String.data hcontra
    rw [String.data_append] at hd
    simp at hd

/-- Witness for the amended C9: the one-character question is rejected with
the too-short error, only the validator runs, and the final_response embeds
the error. -/
theorem claim_C9_witness :
    (pyStrip "嗨").length < 5 ∧
    (runGraph outageEnv "嗨" "u9" "s9w").1 = ["validator"] ∧
    (exceptToOption (runGraph outageEnv "嗨" "u9" "s9w").2).bind
      (fun st => st.final_response) =
      some "抱歉，我无法处理您的问题：提问太短，请提供更详细的问题" := by
  refine ⟨by decide, ?_, ?_⟩
  · exact (claim_C9_amended outageEnv "嗨" "u9" "s9w" (by decide)).1
  · have h := (claim_C9_amended outageEnv "嗨" "u9" "s9w" (by decide)).2.2.1
    rw [h]
    decide

/-- C4: the claim says the analysts named in the plus-split plan execute
strictly serially in the order Market, News, Risk, Response Generator, with
the single market plan skipping News and Risk and an unrecognised plan
falling back to market_analyst. The routing functions of trading_graph.py do
encode exactly that order (first seven conjuncts: the multi plan routes
coordinator to Market, Market to News, News to Risk, Risk to Response
Generator; the single plan routes Market straight to Response Generator; the
unknown plan falls back to market_analyst), but the visit sequence is refuted
as never performed: the investment_advice run aborts inside market_analyst
with the uncaught AttributeError from the entities read, so News, Risk and
the Response Generator are never reached. -/
theorem claim_C4_order_unreachable :
    route_based_on_coordinator_decision c4RouteState = "market_analyst" ∧
    route_after_market_analyst c4RouteState = "news_analyst" ∧
    route_after_news_analyst c4RouteState = "risk_analyst" ∧
    routeFrom "risk_analyst" c4RouteState = "response_generator" ∧
    route_based_on_coordinator_decision c4SingleState = "market_analyst" ∧
    route_after_market_analyst c4SingleState = "response_generator" ∧
    route_based_on_coordinator_decision c4UnknownState = "market_analyst" ∧
    runGraph c4Env "请给出股票投资建议" "u4" "s4" =
      (["validator", "coordinator", "market_analyst"], Except.error pydanticGetError) := by
  refine ⟨?_, ?_, ?_, ?_, ?_, ?_, ?_, rfl⟩ <;> decide
